import Mathlib

/-!
Verification of the InOrbit Edge SDK session layer (`src/index.js`) against its
natural-language specification.

The development is a shallow embedding of the SDK's JavaScript source:

* `RobotSession` embeds the `RobotSession` class.  Its observable effects on
  the transport (MQTT connect, subscribe, publish, end) are reified as a trace
  of `Action` values.  The JavaScript `this.mqtt` field (assigned only inside
  `connect`) is embedded as the boolean `mqtt`: a publish while `this.mqtt` is
  still `undefined` raises a `TypeError`, exactly as
  `this.mqtt.publish(...)` does in JavaScript.
* `RobotSessionPool` embeds the pool.  JavaScript plain-object dictionaries
  are embedded as association lists with `lookupA` / `setA` / `eraseA`
  (ids are assumed not to collide with `Object.prototype` member names).
  A stored connect promise is embedded by its settled outcome
  (`ConnectOutcome`); `await` on a rejected promise re-raises its error.
* `InOrbit` embeds the facade.  ES2022 private fields (`#sessionsPool`, ...)
  are not JavaScript *properties*; `InOrbit.publicProps` lists the public
  properties assigned by the constructor (there are none), so a lookup of
  `this.sessionsPool` yields `none` (JavaScript `undefined`).
* External collaborators are embedded at their interface boundary: the axios
  config fetch is an `Except` parameter (its result), protobuf messages are
  the inductive `ProtoMsg` observed through their setters, and an inbound
  MQTT payload (a `Buffer`) is observed through `asText` (`toString()`) and
  `asCustomCommand` (`deserializeBinary`).
* JavaScript numbers never influence any verified property; numeric telemetry
  fields are carried opaquely as strings.
-/

namespace EdgeSDK

/-! ## Constants (src/index.js lines 14-32 and src/constants.js) -/

def EDGE_SDK_VERSION : String := "1.5.4"

def AGENT_VERSION : String := EDGE_SDK_VERSION ++ ".edgesdk"

def MQTT_TOPIC_CUSTOM_DATA : String := "custom"

def MQTT_TOPIC_LOCALIZATION : String := "ros/loc/data2"

def MQTT_TOPIC_ODOMETRY : String := "ros/odometry/data"

def MQTT_TOPIC_PATHS : String := "ros/loc/path"

def MQTT_TOPIC_ECHO : String := "echo"

def MQTT_IN_TOPIC : String := "in_cmd"

def MQTT_NAV_GOAL_GOAL : String := "ros/loc/nav_goal"

def MQTT_INITIAL_POSE : String := "ros/loc/set_pose"

def MQTT_CUSTOM_COMMAND : String := "custom_command/script/command"

def MQTT_SCRIPT_OUTPUT_TOPIC : String := "custom_command/script/status"

def COMMAND_INITIAL_POSE : String := "initialPose"

def COMMAND_NAV_GOAL : String := "navGoal"

def COMMAND_CUSTOM_COMMAND : String := "customCommand"

def CUSTOM_COMMAND_STATUS_FINISHED : String := "finished"

def CUSTOM_COMMAND_STATUS_ABORTED : String := "aborted"

/-! ## JavaScript-level values and errors -/

/-- A JavaScript runtime error. `typeError` stands for a `TypeError` (e.g.
calling a method of `undefined`), `jsError` for an `Error(...)` thrown by the
SDK itself, and `thrown` for a value thrown by a user callback. -/
inductive JsError where
  | typeError (msg : String)
  | jsError (msg : String)
  | thrown (msg : String)
deriving DecidableEq, Repr

/-- A JavaScript value as it appears in command arguments: a string, the
`undefined` value (e.g. a missing element of a pipe-split destructuring), an
object of string fields such as `{x, y, theta}`, or an array of strings. -/
inductive JsVal where
  | str (s : String)
  | undef
  | obj (fields : List (String × Option String))
  | strList (l : List String)
deriving DecidableEq, Repr

/-- JavaScript string interpolation of a possibly-`undefined` string value:
a template literal renders `undefined` as the text "undefined". -/
def jsTemplate : Option String → String
  | some s => s
  | none => "undefined"

/-! ## Protobuf messages (external codec, observed through their setters) -/

/-- A path in a `PathDataMessage` (`messages.RobotPath`). -/
structure RobotPath where
  ts : String
  pathId : String
  points : List (String × String)
deriving DecidableEq, Repr

/-- A protobuf message built by the SDK, identified by its type and the
values passed to its setters.  The binary serialization is an external codec;
the trace records the message itself. -/
inductive ProtoMsg where
  | echo (topic : String) (timeStamp : Nat) (stringPayload : String)
  | customScriptStatus (fileName : JsVal) (executionId : JsVal)
      (executionStatus : String) (returnCode : String)
  | customDataKV (customField : String) (pairs : List (String × String))
  | locationAndPose (ts posX posY yaw frameId : String)
  | odometryData (tsStart ts linearDistance angularDistance linearSpeed
      angularSpeed : String) (speedAvailable : Bool)
  | pathData (ts : String) (paths : List RobotPath)
deriving DecidableEq, Repr

/-- An MQTT payload: a text payload (state topic) or a protobuf message. -/
inductive MqttPayload where
  | text (s : String)
  | proto (m : ProtoMsg)
deriving DecidableEq, Repr

/-- The last-will configuration passed to `mqtt.connect`. -/
structure Will where
  topic : String
  payload : String
  qos : Nat
  retain : Bool
deriving DecidableEq, Repr

/-- An observable effect of the session on its collaborators: the config
fetch (axios POST), the transport handshake, a subscription, a publish, or
closing the transport. -/
inductive Action where
  | fetchConfig
  | mqttConnect (url : String) (will : Will)
  | subscribe (topic : String)
  | publish (topic : String) (payload : MqttPayload) (qos : Nat) (retain : Bool)
  | mqttEnd
deriving DecidableEq, Repr

/-- The connection parameters returned by the config endpoint. -/
structure MqttConfig where
  protocol : String
  hostname : String
  port : String
  username : String
  password : String
  robotApiKey : String
deriving DecidableEq, Repr

/-- A user command callback, embedded by its observable behaviour on one
invocation: it either returns normally — optionally calling the provided
`resultFunction` with a result code first — or throws. -/
inductive Callback where
  | wellBehaved (reportCode : Option String)
  | throwing (msg : String)
deriving DecidableEq, Repr

/-! ## RobotSession (src/index.js lines 40-445) -/

/-- The state of a `RobotSession` instance.  `mqtt = true` iff `this.mqtt`
has been assigned (which happens only inside `connect`); `robotApiKey` is
`none` until `connect` stores it; `ended` is the flag set by `end()`. -/
structure RobotSession where
  robotId : String
  name : String
  agentVersion : String
  apiKey : String
  robotApiKey : Option String
  ended : Bool
  mqtt : Bool
  commandCallbacks : List Callback
deriving DecidableEq, Repr

/-- `new RobotSession({robotId, name}, settings)`: fields as assigned by the
constructor. -/
def RobotSession.build (robotId name apiKey : String) : RobotSession :=
  { robotId := robotId
    name := name
    agentVersion := AGENT_VERSION
    apiKey := apiKey
    robotApiKey := none
    ended := false
    mqtt := false
    commandCallbacks := [] }

/-- `publish(topic, msg, options)` = `this.mqtt.publish(...)`.  If
`this.mqtt` is still `undefined` the property access throws a `TypeError`;
otherwise the publish action on topic `r/{robotId}/{topic}` is issued. -/
def RobotSession.publishM (s : RobotSession) (topic : String)
    (payload : MqttPayload) (qos : Nat) (retain : Bool) :
    Except JsError Action :=
  if s.mqtt then
    Except.ok (Action.publish ("r/" ++ s.robotId ++ "/" ++ topic) payload qos retain)
  else
    Except.error (JsError.typeError "Cannot read properties of undefined (reading publish)")

/-- `publishProtobuf(topic, msg, options = null)`: publishes serialized bytes
with no options (transport defaults: qos 0, not retained). -/
def RobotSession.publishProtobuf (s : RobotSession) (topic : String)
    (m : ProtoMsg) : Except JsError Action :=
  s.publishM topic (MqttPayload.proto m) 0 false

/-- `connect()` (lines 99-130), given the result of `fetchRobotConfig()`.
On fetch success it opens the transport with the last-will configuration,
subscribes to the four inbound topics, runs the `if (this.ended)` check
(which calls `this.mqtt.end()` but does NOT return), stores `robotApiKey`
and finally publishes the `1|...` online state record.  Returns the action
trace and the updated session (or the fetch error). -/
def RobotSession.connect (s : RobotSession)
    (cfgResult : Except JsError MqttConfig) :
    List Action × Except JsError RobotSession :=
  match cfgResult with
  | Except.error e => ([Action.fetchConfig], Except.error e)
  | Except.ok cfg =>
    let url := cfg.protocol ++ cfg.hostname ++ ":" ++ cfg.port
    let will : Will :=
      { topic := "r/" ++ s.robotId ++ "/state"
        payload := "0|" ++ cfg.robotApiKey
        qos := 1
        retain := true }
    let subs := [Action.subscribe ("r/" ++ s.robotId ++ "/" ++ MQTT_INITIAL_POSE),
                 Action.subscribe ("r/" ++ s.robotId ++ "/" ++ MQTT_NAV_GOAL_GOAL),
                 Action.subscribe ("r/" ++ s.robotId ++ "/" ++ MQTT_CUSTOM_COMMAND),
                 Action.subscribe ("r/" ++ s.robotId ++ "/" ++ MQTT_IN_TOPIC)]
    let endActs := if s.ended then [Action.mqttEnd] else []
    let s2 : RobotSession := { s with mqtt := true, robotApiKey := some cfg.robotApiKey }
    let onlinePub := Action.publish ("r/" ++ s.robotId ++ "/state")
      (MqttPayload.text ("1|" ++ cfg.robotApiKey ++ "|" ++ s.agentVersion ++ "|" ++ s.name))
      1 true
    ([Action.fetchConfig, Action.mqttConnect url will] ++ subs ++ endActs ++ [onlinePub],
     Except.ok s2)

/-- `end()` (lines 135-142).  It first publishes the `0|...` offline state
record — this throws a `TypeError` when `this.mqtt` is still `undefined`,
in which case `this.ended = true` is never reached — then sets the ended
flag and, since `this.mqtt` is set, closes the transport.  (The method is
named `end` in the source; `end` is a reserved word in Lean.) -/
def RobotSession.endSession (s : RobotSession) :
    Except JsError (RobotSession × List Action) :=
  let payload := "0|" ++ jsTemplate s.robotApiKey ++ "|" ++ s.agentVersion ++ "|" ++ s.name
  match s.publishM "state" (MqttPayload.text payload) 1 true with
  | Except.error e => Except.error e
  | Except.ok pubAct =>
    Except.ok ({ s with ended := true }, [pubAct, Action.mqttEnd])

/-! ## Inbound message routing and command dispatch
(src/index.js lines 147-253) -/

/-- The result of running the dispatch loop: how many callbacks were actually
invoked, the publish actions they caused (result reports), and the error, if
one of them threw (in which case the loop stopped there). -/
structure DispatchResult where
  invoked : Nat
  actions : List Action
  err : Option JsError
deriving DecidableEq, Repr

/-- `#reportCommandResult(args, executionId, resultCode)` (lines 244-253):
builds a `CustomScriptStatusMessage` — file name = `args[0]`, status
`finished` iff the code is the `'0'` success sentinel, else `aborted` — and
publishes it on the script-output topic. -/
def RobotSession.reportCommandResult (s : RobotSession) (args : List JsVal)
    (executionId : JsVal) (resultCode : String) : Except JsError Action :=
  let status := if resultCode = "0" then CUSTOM_COMMAND_STATUS_FINISHED
                else CUSTOM_COMMAND_STATUS_ABORTED
  s.publishProtobuf MQTT_SCRIPT_OUTPUT_TOPIC
    (ProtoMsg.customScriptStatus (args.getD 0 JsVal.undef) executionId status resultCode)

/-- The `forEach` body of `#dispatchCommand` (lines 228-238) over the
remaining callbacks.  There is no try/catch (the source marks it as a TODO):
a callback that throws — or whose `resultFunction` call throws — aborts the
loop and the error propagates out of the `forEach`. -/
def RobotSession.dispatchGo (s : RobotSession) (args : List JsVal)
    (executionId : JsVal) : List Callback → DispatchResult
  | [] => { invoked := 0, actions := [], err := none }
  | c :: rest =>
    match c with
    | Callback.throwing m => { invoked := 1, actions := [], err := some (JsError.thrown m) }
    | Callback.wellBehaved code =>
      let r : Except JsError (List Action) :=
        match code with
        | none => Except.ok []
        | some rc =>
          match s.reportCommandResult args executionId rc with
          | Except.error e => Except.error e
          | Except.ok a => Except.ok [a]
      match r with
      | Except.error e => { invoked := 1, actions := [], err := some e }
      | Except.ok acts =>
        let d := RobotSession.dispatchGo s args executionId rest
        { invoked := d.invoked + 1, actions := acts ++ d.actions, err := d.err }

/-- `#dispatchCommand(commandName, args, executionId)` (lines 228-238):
invokes the registered command callbacks in registration order.  The command
name is passed to each callback but does not influence the loop itself. -/
def RobotSession.dispatchCommand (s : RobotSession) (_commandName : String)
    (args : List JsVal) (executionId : JsVal) : DispatchResult :=
  RobotSession.dispatchGo s args executionId s.commandCallbacks

/-- An inbound MQTT message (a Node `Buffer`), observed through the two
decodings the source applies to it: `toString()` and
`CustomScriptCommandMessage.deserializeBinary` (file name, ordered option
list, execution id). -/
structure InboundMessage where
  asText : String
  fileName : String
  argOptions : List String
  executionId : String
deriving DecidableEq, Repr

/-- The `i`-th element of a JavaScript array destructuring: `undefined` when
the array is too short. -/
def destructure (parts : List String) (i : Nat) : JsVal :=
  match parts.get? i with
  | some s => JsVal.str s
  | none => JsVal.undef

/-- `#handleInitialPose` (lines 182-191): splits `message.toString()` on
`"|"` into `[seq, ts, x, y, theta]` and dispatches `initialPose` with args
`[{x, y, theta}]` and the sequence number as execution id. -/
def RobotSession.handleInitialPose (s : RobotSession) (message : InboundMessage) :
    DispatchResult :=
  let parts := message.asText.splitOn "|"
  let field : Nat → Option String := fun i => parts.get? i
  s.dispatchCommand COMMAND_INITIAL_POSE
    [JsVal.obj [("x", field 2), ("y", field 3), ("theta", field 4)]]
    (destructure parts 0)

/-- `#handleNavGoal` (lines 196-205): same pipe-delimited decoding as
initial pose, dispatched as `navGoal`. -/
def RobotSession.handleNavGoal (s : RobotSession) (message : InboundMessage) :
    DispatchResult :=
  let parts := message.asText.splitOn "|"
  let field : Nat → Option String := fun i => parts.get? i
  s.dispatchCommand COMMAND_NAV_GOAL
    [JsVal.obj [("x", field 2), ("y", field 3), ("theta", field 4)]]
    (destructure parts 0)

/-- `#handleCustomCommand` (lines 210-222): deserializes the binary message
and dispatches `customCommand` with `[fileName, argOptionsList]` and the
message's execution id. -/
def RobotSession.handleCustomCommand (s : RobotSession) (message : InboundMessage) :
    DispatchResult :=
  s.dispatchCommand COMMAND_CUSTOM_COMMAND
    [JsVal.str message.fileName, JsVal.strList message.argOptions]
    (JsVal.str message.executionId)

/-- `#sendEcho(topic, payload)` (lines 147-154): publishes an `Echo` message
carrying the original topic, the receipt timestamp (`Date.now()`, passed in
as `now`) and `payload.toString()` on the echo topic. -/
def RobotSession.sendEcho (s : RobotSession) (now : Nat) (topic : String)
    (message : InboundMessage) : Except JsError Action :=
  s.publishProtobuf MQTT_TOPIC_ECHO (ProtoMsg.echo topic now message.asText)

/-- The subtopic extraction of `#onMessage`:
`topic.split('/').slice(2).join('/')`. -/
def subtopicOf (topic : String) : String :=
  String.intercalate "/" ((topic.splitOn "/").drop 2)

/-- `#onMessage(topic, message)` (lines 159-169): first sends the echo
acknowledgement, then routes the message to the handler registered for its
subtopic, if any.  The handler table `#messageHandlers` holds exactly the
three keys set in the constructor (lines 68-70).  (The JavaScript `in`
operator would also match `Object.prototype` member names; those "handlers"
are inherited built-in functions that publish nothing, so they are routed
here as unmatched.)  Returns the emitted actions in order and the error if
dispatch threw.  -/
def RobotSession.onMessage (s : RobotSession) (now : Nat) (topic : String)
    (message : InboundMessage) : List Action × Option JsError :=
  match s.sendEcho now topic message with
  | Except.error e => ([], some e)
  | Except.ok echoAct =>
    let st := subtopicOf topic
    let handled : Option DispatchResult :=
      if st = MQTT_INITIAL_POSE then some (s.handleInitialPose message)
      else if st = MQTT_NAV_GOAL_GOAL then some (s.handleNavGoal message)
      else if st = MQTT_CUSTOM_COMMAND then some (s.handleCustomCommand message)
      else none
    match handled with
    | none => ([echoAct], none)
    | some d => (echoAct :: d.actions, d.err)

/-! ## Telemetry publish methods (src/index.js lines 275-396)
Numeric fields (coordinates, timestamps, speeds) are carried opaquely as
strings; no verified property inspects them. -/

/-- `convertValue` inside `publishCustomDataKV` (lines 278-280): an object
value is JSON-stringified, anything else is converted with `String(...)`. -/
def convertValue : JsVal → String
  | JsVal.str s => s
  | JsVal.undef => "undefined"
  | JsVal.obj fields =>
    "\x7b" ++ String.intercalate ","
      ((fields.filterMap (fun kv =>
        match kv.2 with
        | some v => some ("\x22" ++ kv.1 ++ "\x22:\x22" ++ v ++ "\x22")
        | none => none))) ++ "\x7d"
  | JsVal.strList l =>
    "[" ++ String.intercalate "," (l.map (fun v => "\x22" ++ v ++ "\x22")) ++ "]"

/-- `publishCustomDataKV(keyValues, customField = '0')` (lines 275-295). -/
def RobotSession.publishCustomDataKV (s : RobotSession)
    (keyValues : List (String × JsVal)) (customField : String) :
    Except JsError Action :=
  s.publishProtobuf MQTT_TOPIC_CUSTOM_DATA
    (ProtoMsg.customDataKV customField
      (keyValues.map (fun kv => (kv.1, convertValue kv.2))))

/-- `publishPose({ts, x, y, yaw, frameId})` (lines 306-316). -/
def RobotSession.publishPose (s : RobotSession) (ts x y yaw frameId : String) :
    Except JsError Action :=
  s.publishProtobuf MQTT_TOPIC_LOCALIZATION
    (ProtoMsg.locationAndPose ts x y yaw frameId)

/-- `publishOdometry({tsStart, ts, distance, speed})` (lines 334-349). -/
def RobotSession.publishOdometry (s : RobotSession)
    (tsStart ts linearDistance angularDistance linearSpeed angularSpeed : String) :
    Except JsError Action :=
  s.publishProtobuf MQTT_TOPIC_ODOMETRY
    (ProtoMsg.odometryData tsStart ts linearDistance angularDistance
      linearSpeed angularSpeed true)

/-- `publishPaths({ts, paths})` (lines 366-385); `path.ts || ts` falls back
to the outer timestamp when the path has none (`none` embeds a falsy
`path.ts`). -/
def RobotSession.publishPaths (s : RobotSession) (ts : String)
    (paths : List (Option String × String × List (String × String))) :
    Except JsError Action :=
  s.publishProtobuf MQTT_TOPIC_PATHS
    (ProtoMsg.pathData ts
      (paths.map (fun p =>
        { ts := match p.1 with | some t => t | none => ts
          pathId := p.2.1
          points := p.2.2 })))

/-- `registerCommandCallback(callback)` (lines 430-437): a non-function
argument is ignored; otherwise the callback is appended.  `isFn` embeds the
lodash `isFunction` test on the argument. -/
def RobotSession.registerCommandCallback (s : RobotSession) (isFn : Bool)
    (cb : Callback) : RobotSession :=
  if isFn then { s with commandCallbacks := s.commandCallbacks ++ [cb] }
  else s

/-! ## Association lists embedding JavaScript object dictionaries -/

/-- `obj[k]` (returns `undefined`, i.e. `none`, when absent). -/
def lookupA {α : Type} : List (String × α) → String → Option α
  | [], _ => none
  | (k0, v) :: rest, k => if k0 = k then some v else lookupA rest k

/-- `obj[k] = v`. -/
def setA {α : Type} : List (String × α) → String → α → List (String × α)
  | [], k, v => [(k, v)]
  | (k0, v0) :: rest, k, v =>
    if k0 = k then (k0, v) :: rest else (k0, v0) :: setA rest k v

/-- `delete obj[k]`. -/
def eraseA {α : Type} : List (String × α) → String → List (String × α)
  | [], _ => []
  | (k0, v0) :: rest, k =>
    if k0 = k then eraseA rest k else (k0, v0) :: eraseA rest k

/-! ## RobotSessionPool (src/index.js lines 485-547) -/

/-- The settled outcome of a stored connect promise: `await`-ing a
`resolved` entry yields normally, `await`-ing a `rejected` one re-raises
the connect error. -/
inductive ConnectOutcome where
  | resolved
  | rejected (e : JsError)
deriving DecidableEq, Repr

/-- The pool state: the three dictionaries initialized by the constructor
(lines 486-491). -/
structure PoolState where
  robotSessions : List (String × RobotSession)
  robotSessionsLastUse : List (String × Nat)
  connectPromises : List (String × ConnectOutcome)
deriving DecidableEq, Repr

/-- `new RobotSessionPool(factory)`: empty dictionaries. -/
def PoolState.init : PoolState := { robotSessions := [], robotSessionsLastUse := [], connectPromises := [] }

/-- `hasRobot(robotId)` (lines 529-531): `robotId in this.robotSessions`. -/
def RobotSessionPool.hasRobot (p : PoolState) (robotId : String) : Bool :=
  (lookupA p.robotSessions robotId).isSome

/-- `getSession({robotId, name})` (lines 500-512), with the factory's
`apiKey` and the environment supplied as parameters: `now` is `Date.now()`
and `cfgResult` is the result the config endpoint would give a *new*
session's `connect` (it is only consulted when a session is created).
Updates the last-use timestamp; on a cache miss builds the session and runs
its `connect`, storing the session and the settled connect promise; then
awaits the stored promise — re-raising its rejection — and returns
`this.robotSessions[robotId]` (which is `undefined`, i.e. `none`, only if
the dictionaries were externally out of sync). -/
def RobotSessionPool.getSession (p : PoolState) (apiKey robotId name : String)
    (now : Nat) (cfgResult : Except JsError MqttConfig) :
    PoolState × List Action × Except JsError (Option RobotSession) :=
  let p1 : PoolState := { p with robotSessionsLastUse := setA p.robotSessionsLastUse robotId now }
  let created : PoolState × List Action :=
    match lookupA p1.robotSessions robotId with
    | some _ => (p1, [])
    | none =>
      let s0 := RobotSession.build robotId name apiKey
      match RobotSession.connect s0 cfgResult with
      | (acts, Except.ok s1) =>
        ({ p1 with robotSessions := setA p1.robotSessions robotId s1
                   connectPromises := setA p1.connectPromises robotId ConnectOutcome.resolved },
         acts)
      | (acts, Except.error e) =>
        ({ p1 with robotSessions := setA p1.robotSessions robotId s0
                   connectPromises := setA p1.connectPromises robotId (ConnectOutcome.rejected e) },
         acts)
  let p2 := created.1
  match lookupA p2.connectPromises robotId with
  | some (ConnectOutcome.rejected e) => (p2, created.2, Except.error e)
  | _ => (p2, created.2, Except.ok (lookupA p2.robotSessions robotId))

/-- `freeRobotSession(robotId)` (lines 537-546): a no-op on an unknown id;
otherwise it awaits `getSession({robotId})` (whose `name` is `undefined`
and whose config fetch is never consulted, since the session exists — both
are passed as dummies), calls `end()` on the session, and deletes the three
dictionary entries.  An error from the await or from `end()` propagates and
skips the deletions. -/
def RobotSessionPool.freeRobotSession (p : PoolState) (apiKey robotId : String)
    (now : Nat) : PoolState × List Action × Except JsError Unit :=
  if RobotSessionPool.hasRobot p robotId then
    match RobotSessionPool.getSession p apiKey robotId "undefined" now
        (Except.error (JsError.jsError "unused: session already exists")) with
    | (p1, acts, Except.error e) => (p1, acts, Except.error e)
    | (p1, acts, Except.ok none) =>
      (p1, acts, Except.error (JsError.typeError "Cannot read properties of undefined (reading end)"))
    | (p1, acts, Except.ok (some sess)) =>
      match sess.endSession with
      | Except.error e => (p1, acts, Except.error e)
      | Except.ok (_, endActs) =>
        ({ robotSessions := eraseA p1.robotSessions robotId
           robotSessionsLastUse := eraseA p1.robotSessionsLastUse robotId
           connectPromises := eraseA p1.connectPromises robotId },
         acts ++ endActs, Except.ok ())
  else (p, [], Except.ok ())

/-- `tearDown()`'s `forEach` over the sessions (line 518): ends each session
in turn; an `end()` that throws aborts the iteration and propagates. -/
def poolTearDownGo : List (String × RobotSession) →
    List Action × Option JsError
  | [] => ([], none)
  | (_, s) :: rest =>
    match s.endSession with
    | Except.error e => ([], some e)
    | Except.ok (_, acts) =>
      let r := poolTearDownGo rest
      (acts ++ r.1, r.2)

/-- `tearDown()` (lines 517-522): ends every session, then resets the three
dictionaries.  If some `end()` throws, the forEach aborts and the
dictionaries are left untouched. -/
def RobotSessionPool.tearDown (p : PoolState) :
    PoolState × List Action × Except JsError Unit :=
  match poolTearDownGo p.robotSessions with
  | (acts, some e) => (p, acts, Except.error e)
  | (acts, none) => (PoolState.init, acts, Except.ok ())

/-! ## InOrbit facade (src/index.js lines 557-775) -/

/-- The state of an `InOrbit` instance: the three ES2022 private fields set
by the constructor.  `explicitConnect` is `settings.explicitConnect !== false`. -/
structure InOrbitState where
  apiKey : String
  sessionsPool : PoolState
  explicitConnect : Bool
  commandCallbacks : List Callback
deriving DecidableEq, Repr

/-- `new InOrbit(settings)` after the `apiKey` presence check (lines 577-585). -/
def InOrbit.build (apiKey : String) (explicitConnect : Bool) : InOrbitState :=
  { apiKey := apiKey
    sessionsPool := PoolState.init
    explicitConnect := explicitConnect
    commandCallbacks := [] }

/-- The message of the `Error` thrown by `#getRobotSession` (line 602). -/
def usageErrorMsg : String :=
  "Can\x27t get robot session or send data before connecting. Use connectRobot before sending any data"

/-- `#getRobotSession({robotId, name = 'edge-sdk'})` (lines 600-606): throws
the usage error when `explicitConnect` is set and the pool has no session
for the id; otherwise forwards to the pool's `getSession`. -/
def InOrbit.getRobotSession (st : InOrbitState) (robotId name : String)
    (now : Nat) (cfgResult : Except JsError MqttConfig) :
    InOrbitState × List Action × Except JsError (Option RobotSession) :=
  if st.explicitConnect && !(RobotSessionPool.hasRobot st.sessionsPool robotId) then
    (st, [], Except.error (JsError.jsError usageErrorMsg))
  else
    match RobotSessionPool.getSession st.sessionsPool st.apiKey robotId name now cfgResult with
    | (p1, acts, res) => ({ st with sessionsPool := p1 }, acts, res)

/-- Shared shape of the four facade publish methods (lines 660-730): get the
robot session, then invoke the given session publish on it.  An error from
`#getRobotSession` propagates; a session publish that throws propagates. -/
def InOrbit.publishVia (st : InOrbitState) (robotId : String) (now : Nat)
    (cfgResult : Except JsError MqttConfig)
    (doPublish : RobotSession → Except JsError Action) :
    InOrbitState × List Action × Except JsError Unit :=
  match InOrbit.getRobotSession st robotId "edge-sdk" now cfgResult with
  | (st1, acts, Except.error e) => (st1, acts, Except.error e)
  | (st1, acts, Except.ok none) =>
    (st1, acts, Except.error (JsError.typeError "Cannot read properties of undefined"))
  | (st1, acts, Except.ok (some sess)) =>
    match doPublish sess with
    | Except.error e => (st1, acts, Except.error e)
    | Except.ok a => (st1, acts ++ [a], Except.ok ())

/-- `InOrbit.publishCustomDataKV(robotId, keyValues, customField)`
(lines 660-663). -/
def InOrbit.publishCustomDataKV (st : InOrbitState) (robotId : String)
    (keyValues : List (String × JsVal)) (customField : String) (now : Nat)
    (cfgResult : Except JsError MqttConfig) :
    InOrbitState × List Action × Except JsError Unit :=
  InOrbit.publishVia st robotId now cfgResult
    (fun sess => sess.publishCustomDataKV keyValues customField)

/-- `InOrbit.publishPose(robotId, pose)` (lines 678-681). -/
def InOrbit.publishPose (st : InOrbitState) (robotId : String)
    (ts x y yaw frameId : String) (now : Nat)
    (cfgResult : Except JsError MqttConfig) :
    InOrbitState × List Action × Except JsError Unit :=
  InOrbit.publishVia st robotId now cfgResult
    (fun sess => sess.publishPose ts x y yaw frameId)

/-- `InOrbit.publishOdometry(robotId, odometry)` (lines 703-706). -/
def InOrbit.publishOdometry (st : InOrbitState) (robotId : String)
    (tsStart ts linearDistance angularDistance linearSpeed angularSpeed : String)
    (now : Nat) (cfgResult : Except JsError MqttConfig) :
    InOrbitState × List Action × Except JsError Unit :=
  InOrbit.publishVia st robotId now cfgResult
    (fun sess => sess.publishOdometry tsStart ts linearDistance angularDistance
      linearSpeed angularSpeed)

/-- `InOrbit.publishPaths(robotId, paths)` (lines 727-730). -/
def InOrbit.publishPaths (st : InOrbitState) (robotId : String) (ts : String)
    (paths : List (Option String × String × List (String × String))) (now : Nat)
    (cfgResult : Except JsError MqttConfig) :
    InOrbitState × List Action × Except JsError Unit :=
  InOrbit.publishVia st robotId now cfgResult
    (fun sess => sess.publishPaths ts paths)

/-- `InOrbit.registerCommandCallback(callback)` (lines 767-774): a
non-function argument returns `undefined`; otherwise the callback is pushed
onto the facade's global list and `this` is returned.  No session lookup, no
`hasSession` check, no error in either case. -/
def InOrbit.registerCommandCallback (st : InOrbitState) (isFn : Bool)
    (cb : Callback) : InOrbitState × Except JsError (Option Unit) :=
  if isFn then
    ({ st with commandCallbacks := st.commandCallbacks ++ [cb] }, Except.ok (some ()))
  else (st, Except.ok none)

/-- A JavaScript property value reachable from an `InOrbit` instance. -/
inductive PropVal where
  | poolRef (p : PoolState)
deriving DecidableEq, Repr

/-- The public (non-private) properties assigned on `this` by the `InOrbit`
constructor (lines 577-585): there are none — the constructor assigns only
the ES2022 private fields `#sessionsPool`, `#explicitConnect` and
`#commandCallbacks`, which are not properties and are not reachable as
`this.sessionsPool` etc.  -/
def InOrbit.publicProps (_st : InOrbitState) : List (String × PropVal) := []

/-- `InOrbit.tearDown()` (lines 590-592): evaluates
`this.sessionsPool.tearDown()`.  The property lookup of `sessionsPool`
yields `undefined` (the pool lives in the private field `#sessionsPool`),
so the method call throws a `TypeError`; were the property present, the
pool's `tearDown` would run. -/
def InOrbit.tearDown (st : InOrbitState) :
    InOrbitState × List Action × Except JsError Unit :=
  match lookupA (InOrbit.publicProps st) "sessionsPool" with
  | none =>
    (st, [], Except.error (JsError.typeError "Cannot read properties of undefined (reading tearDown)"))
  | some (PropVal.poolRef p) =>
    match RobotSessionPool.tearDown p with
    | (p1, acts, res) => ({ st with sessionsPool := p1 }, acts, res)

/-! ## Fine-grained view of `getSession` under concurrent callers
(src/index.js lines 500-512)

JavaScript is single-threaded: an `async` function runs uninterrupted
between `await` points.  `getSession` has exactly one `await`
(line 510), so each call is two atomic segments:

* segment A (lines 501-508): update the last-use timestamp; if no session is
  cached, build one and call its `connect()` — storing the resulting promise
  in `connectPromises` — all synchronously;
* segment B (lines 510-511): resume after awaiting the stored promise and
  return `this.robotSessions[robotId]`.

For one id, an interleaving of n concurrent callers is an ordering of their
n A-segments (the B-segments only read state that no A-segment ever
overwrites).  The A-segment is the same function for every caller, so a
schedule is embedded as a list with one entry per caller, in execution
order.  Session and promise objects are identified by a freshness counter so
that "the same object" is provable. -/

/-- The pool state visible to concurrent `getSession` callers for one id:
the cached session object, the stored pending-attempt promise (both
identified by creation number), how many times `RobotSession.connect` has
been invoked, and the freshness counter. -/
structure GSState where
  sessionObj : Option Nat
  pending : Option Nat
  connectCalls : Nat
  fresh : Nat
deriving DecidableEq, Repr

/-- The pool state before any caller runs: no session, no pending attempt. -/
def GSState.init : GSState :=
  { sessionObj := none, pending := none, connectCalls := 0, fresh := 0 }

/-- Segment A of `getSession` (lines 501-508), which runs atomically: on a
cache miss it creates the session object, invokes `connect()` once and
stores the pending promise; on a hit it changes nothing. -/
def getSessionSyncStep (st : GSState) : GSState :=
  match st.sessionObj with
  | some _ => st
  | none =>
    { sessionObj := some st.fresh
      pending := some st.fresh
      connectCalls := st.connectCalls + 1
      fresh := st.fresh + 1 }

/-- Runs the A-segments of the scheduled callers in order, recording for
each caller the promise it proceeds to await (the `connectPromises` entry it
reads at line 510). -/
def runSchedule : List Nat → GSState → GSState × List (Option Nat)
  | [], st => (st, [])
  | _ :: rest, st =>
    let st1 := getSessionSyncStep st
    let r := runSchedule rest st1
    (r.1, st1.pending :: r.2)

/-! ## Trace predicates and concrete fixtures -/

/-- Is this action an echo-acknowledgement publish (an `Echo` protobuf)? -/
def isEchoPub : Action → Bool
  | Action.publish _ (MqttPayload.proto (ProtoMsg.echo _ _ _)) _ _ => true
  | _ => false

/-- Is this action a transport handshake? -/
def isMqttConnectAct : Action → Bool
  | Action.mqttConnect _ _ => true
  | _ => false

/-- Is this action a config fetch? -/
def isFetchConfigAct : Action → Bool
  | Action.fetchConfig => true
  | _ => false

/-- Is this action a publish of any kind? -/
def isPublishAct : Action → Bool
  | Action.publish _ _ _ _ => true
  | _ => false

/-- A concrete config-endpoint response. -/
def cfg0 : MqttConfig :=
  { protocol := "tcp://", hostname := "localhost", port := "1883"
    username := "u", password := "pw", robotApiKey := "rk" }

/-- A session for robot `r1` flagged `ended` while still connecting. -/
def sEnded : RobotSession := { RobotSession.build "r1" "n" "k" with ended := true }

/-- The session for robot `r1` after a successful `connect` with `cfg0`. -/
def sConnected : RobotSession :=
  { RobotSession.build "r1" "n" "k" with mqtt := true, robotApiKey := some "rk" }

/-- `sConnected` after one successful `end()` call. -/
def sEndedOnce : RobotSession := { sConnected with ended := true }

/-- The offline state record `end()` publishes for `sConnected`. -/
def offlinePubR1 : Action :=
  Action.publish "r/r1/state"
    (MqttPayload.text ("0|rk|" ++ AGENT_VERSION ++ "|n")) 1 true

/-- A connected session with two registered callbacks, the first of which
throws. -/
def sTwoCallbacks : RobotSession :=
  { sConnected with
    commandCallbacks := [Callback.throwing "boom", Callback.wellBehaved (some "0")] }

/-- A concrete inbound message. -/
def m0 : InboundMessage :=
  { asText := "42|1000|1.0|2.0|0.5", fileName := "f.sh", argOptions := [], executionId := "9" }

/-- The pool after one `getSession` for `r1` whose connect succeeded. -/
def poolAfterGet : PoolState :=
  (RobotSessionPool.getSession PoolState.init "k" "r1" "n" 0 (Except.ok cfg0)).1

/-- The fetch error `fetchRobotConfig` throws for robot `r1`. -/
def fetchFail : JsError := JsError.jsError "Failed to fetch config for robot r1"

/-- The pool after one `getSession` for `r1` whose config fetch failed. -/
def poolFailed : PoolState :=
  (RobotSessionPool.getSession PoolState.init "k" "r1" "n" 0 (Except.error fetchFail)).1

/-- A freshly constructed facade with the default (explicit) connect policy
and no robot ever connected. -/
def freshFacade : InOrbitState := InOrbit.build "k" true

/-! ## Helper lemmas -/

theorem lookupA_setA_self {α : Type} (l : List (String × α)) (k : String) (v : α) :
    lookupA (setA l k v) k = some v := by
  induction l with
  | nil => simp [setA, lookupA]
  | cons hd tl ih =>
    by_cases h : hd.1 = k
    · simp [setA, lookupA, h]
    · simp [setA, lookupA, h, ih]

theorem lookupA_setA_ne {α : Type} (l : List (String × α)) (k k' : String) (v : α)
    (h : k ≠ k') : lookupA (setA l k v) k' = lookupA l k' := by
  induction l with
  | nil => simp [setA, lookupA, h]
  | cons hd tl ih =>
    by_cases hh : hd.1 = k
    · simp [setA, lookupA, hh, h]
    · simp [setA, lookupA, hh, ih]

theorem lookupA_eraseA_self {α : Type} (l : List (String × α)) (k : String) :
    lookupA (eraseA l k) k = none := by
  induction l with
  | nil => simp [eraseA, lookupA]
  | cons hd tl ih =>
    by_cases h : hd.1 = k
    · simp [eraseA, h, ih]
    · simp [eraseA, lookupA, h, ih]

/-- The dispatch loop publishes only command-result reports, never an echo
acknowledgement. -/
theorem dispatchGo_no_echo (s : RobotSession) (args : List JsVal)
    (executionId : JsVal) (cbs : List Callback) :
    (RobotSession.dispatchGo s args executionId cbs).actions.countP isEchoPub = 0 := by
  induction cbs with
  | nil => simp [RobotSession.dispatchGo]
  | cons c rest ih =>
    cases c with
    | throwing m => simp [RobotSession.dispatchGo]
    | wellBehaved code =>
      cases code with
      | none => simpa [RobotSession.dispatchGo] using ih
      | some rc =>
        by_cases hm : s.mqtt
        · simp [RobotSession.dispatchGo, RobotSession.reportCommandResult,
            RobotSession.publishProtobuf, RobotSession.publishM, hm,
            List.countP_cons, isEchoPub, ih]
        · simp [RobotSession.dispatchGo, RobotSession.reportCommandResult,
            RobotSession.publishProtobuf, RobotSession.publishM, hm]

/-- Once a session is cached, the synchronous segment of `getSession` is the
identity. -/
theorem getSessionSyncStep_of_some (st : GSState) (k : Nat)
    (h : st.sessionObj = some k) : getSessionSyncStep st = st := by
  simp [getSessionSyncStep, h]

/-- Once a session and a pending attempt are cached, every later caller's
A-segment leaves the state unchanged and observes the cached promise. -/
theorem runSchedule_of_some (sched : List Nat) (st : GSState) (k p : Nat)
    (hs : st.sessionObj = some k) (hp : st.pending = some p) :
    runSchedule sched st = (st, sched.map (fun _ => some p)) := by
  induction sched with
  | nil => simp [runSchedule]
  | cons c rest ih =>
    simp [runSchedule, getSessionSyncStep_of_some st k hs, ih, hp]

/-! ## Claim theorems -/

/-- Claim C1 (evidence of the code bug): ending a session while `connect()`
is still in progress does not behave as specified.  First, `end()` called
before the transport is assigned throws a `TypeError` at its state publish,
so the `ended` flag is never even recorded.  Second, even for a session
whose `ended` flag IS set when the handshake completes, `connect` closes the
transport but then — lacking an early return — still issues the `1|...`
online presence publish, which the claim says is never published. -/
theorem connect_after_premature_end_still_publishes_online :
    RobotSession.endSession (RobotSession.build "r1" "n" "k") =
      Except.error (JsError.typeError "Cannot read properties of undefined (reading publish)")
    ∧ (RobotSession.build "r1" "n" "k").ended = false
    ∧ Action.mqttEnd ∈ (RobotSession.connect sEnded (Except.ok cfg0)).1
    ∧ Action.publish "r/r1/state" (MqttPayload.text ("1|rk|" ++ AGENT_VERSION ++ "|n")) 1 true
        ∈ (RobotSession.connect sEnded (Except.ok cfg0)).1 := by
  refine ⟨rfl, rfl, ?_, ?_⟩ <;> decide

/-- Claim C5 (counterexample): `end()` on an already-ended session is not
free of observable publishes — the second call returns without error but
emits the very same offline state publish (and transport close) again, since
the method has no ended-guard. -/
theorem second_end_call_republishes_offline :
    RobotSession.endSession sConnected = Except.ok (sEndedOnce, [offlinePubR1, Action.mqttEnd])
    ∧ RobotSession.endSession sEndedOnce = Except.ok (sEndedOnce, [offlinePubR1, Action.mqttEnd])
    ∧ [offlinePubR1, Action.mqttEnd].countP isPublishAct = 1 :=
  ⟨rfl, rfl, by decide⟩

/-- Claim C5 (amended): calling `end()` on an already-ended session (with
the transport assigned) raises no error and leaves the session state
unchanged, but it is not a publish-free no-op: it publishes the offline
presence record again and closes the transport again. -/
theorem end_on_ended_session_is_unguarded (s : RobotSession)
    (h1 : s.ended = true) (h2 : s.mqtt = true) :
    RobotSession.endSession s =
      Except.ok (s,
        [Action.publish ("r/" ++ s.robotId ++ "/" ++ "state")
          (MqttPayload.text ("0|" ++ jsTemplate s.robotApiKey ++ "|" ++ s.agentVersion ++ "|" ++ s.name))
          1 true,
         Action.mqttEnd]) := by
  cases s with
  | mk robotId name agentVersion apiKey robotApiKey ended mqtt commandCallbacks =>
    simp only at h1 h2
    simp [RobotSession.endSession, RobotSession.publishM, h1, h2]

/-- Witness for the amended C5 theorem at a concrete ended session. -/
theorem end_on_ended_session_is_unguarded_witness :
    sEndedOnce.ended = true ∧ sEndedOnce.mqtt = true
    ∧ RobotSession.endSession sEndedOnce =
        Except.ok (sEndedOnce,
          [Action.publish ("r/" ++ sEndedOnce.robotId ++ "/" ++ "state")
            (MqttPayload.text ("0|" ++ jsTemplate sEndedOnce.robotApiKey ++ "|"
              ++ sEndedOnce.agentVersion ++ "|" ++ sEndedOnce.name))
            1 true,
           Action.mqttEnd]) :=
  ⟨rfl, rfl, end_on_ended_session_is_unguarded sEndedOnce rfl rfl⟩

/-- Claim C7 (evidence of the code bug): the dispatch loop has no per-callback
try/catch (the source marks it TODO).  With two registered callbacks where
the first throws, only one callback is invoked — the second is skipped — and
the thrown error propagates out of the dispatch. -/
theorem dispatch_aborts_on_throwing_callback :
    sTwoCallbacks.commandCallbacks.length = 2
    ∧ RobotSession.dispatchCommand sTwoCallbacks COMMAND_CUSTOM_COMMAND
        [JsVal.str "f.sh", JsVal.strList []] (JsVal.str "42")
      = { invoked := 1, actions := [], err := some (JsError.thrown "boom") } :=
  ⟨rfl, rfl⟩

/-- Claim C8 (counterexample): the last-will payload configured by `connect`
is the truncated `0|{secondaryKey}` text, not the claimed full state format
`0|{secondaryKey}|{agentVersion}|{displayName}`. -/
theorem will_payload_lacks_version_and_name :
    (RobotSession.connect (RobotSession.build "r1" "n" "k") (Except.ok cfg0)).1.get? 1
      = some (Action.mqttConnect "tcp://localhost:1883"
          { topic := "r/r1/state", payload := "0|rk", qos := 1, retain := true })
    ∧ "0|rk" ≠ "0|rk|" ++ AGENT_VERSION ++ "|n" := by
  refine ⟨rfl, ?_⟩
  decide

/-- Claim C8 (amended): every connect attempt configures the transport with
a last-will on the entity's state topic, retained and with at-least-once
delivery (qos 1), whose payload is `0|{secondaryKey}` — offline status and
secondary key only, without the agent version and display name of the full
state-topic format. -/
theorem connect_configures_will (s : RobotSession) (cfg : MqttConfig) :
    (RobotSession.connect s (Except.ok cfg)).1.get? 1 =
      some (Action.mqttConnect (cfg.protocol ++ cfg.hostname ++ ":" ++ cfg.port)
        { topic := "r/" ++ s.robotId ++ "/state", payload := "0|" ++ cfg.robotApiKey
          qos := 1, retain := true }) := rfl

/-- Claim C10: `InOrbit.tearDown()` reads the property `this.sessionsPool`,
which is never assigned (the pool lives in the private field
`#sessionsPool`), so every call throws a `TypeError`, ends no session and
clears no bookkeeping — the facade state is returned unchanged with an
empty action trace. -/
theorem tearDown_always_raises_type_error (st : InOrbitState) :
    InOrbit.tearDown st =
      (st, [], Except.error (JsError.typeError "Cannot read properties of undefined (reading tearDown)")) :=
  rfl

/-- Claim C2: for every nonempty set of concurrent `getSession` callers on
an id with no cached session, under every interleaving of their atomic
segments, `connect()` is invoked exactly once (`connect` itself performing
exactly one config fetch and one transport handshake), every caller awaits
the same stored pending-attempt promise, and the cached session object —
the one every caller returns after its await — is the single session
created by the first caller. -/
theorem getSession_concurrent_dedup (sched : List Nat) (h : sched ≠ []) :
    (runSchedule sched GSState.init).1.connectCalls = 1
    ∧ (runSchedule sched GSState.init).1.sessionObj = some 0
    ∧ (runSchedule sched GSState.init).2 = sched.map (fun _ => some 0)
    ∧ (∀ (s : RobotSession) (cfg : MqttConfig),
        (RobotSession.connect s (Except.ok cfg)).1.countP isFetchConfigAct = 1
        ∧ (RobotSession.connect s (Except.ok cfg)).1.countP isMqttConnectAct = 1) := by
  match sched, h with
  | c :: rest, _ =>
    have h1 : getSessionSyncStep GSState.init =
        { sessionObj := some 0, pending := some 0, connectCalls := 1, fresh := 1 } := rfl
    have hrun : runSchedule (c :: rest) GSState.init =
        ({ sessionObj := some 0, pending := some 0, connectCalls := 1, fresh := 1 },
         some 0 :: rest.map (fun _ => some 0)) := by
      simp [runSchedule, h1,
        runSchedule_of_some rest
          { sessionObj := some 0, pending := some 0, connectCalls := 1, fresh := 1 } 0 0 rfl rfl]
    refine ⟨by rw [hrun], by rw [hrun], by rw [hrun]; simp, ?_⟩
    intro s cfg
    constructor <;>
      · simp only [RobotSession.connect]
        cases s.ended <;>
          simp [List.countP, List.countP.go, isFetchConfigAct, isMqttConnectAct]

/-- Witness for the C2 theorem: two concrete concurrent callers. -/
theorem getSession_concurrent_dedup_witness :
    ([1, 2] : List Nat) ≠ []
    ∧ (runSchedule [1, 2] GSState.init).1.connectCalls = 1 :=
  ⟨by decide, (getSession_concurrent_dedup [1, 2] (by decide)).1⟩

/-- Claim C3: for every inbound message on any topic of a session whose
transport is assigned, the message-routing callback emits exactly one
echo-acknowledgement publish — as its first action, on the entity's echo
topic, carrying the original topic name, the receipt timestamp and the raw
payload converted to text — whether or not the topic's trailing segment
matches a registered command handler. -/
theorem onMessage_exactly_one_echo (s : RobotSession) (now : Nat)
    (topic : String) (message : InboundMessage) (hmqtt : s.mqtt = true) :
    (s.onMessage now topic message).1.countP isEchoPub = 1
    ∧ (s.onMessage now topic message).1.head? =
        some (Action.publish ("r/" ++ s.robotId ++ "/" ++ MQTT_TOPIC_ECHO)
          (MqttPayload.proto (ProtoMsg.echo topic now message.asText)) 0 false) := by
  have hecho : s.sendEcho now topic message =
      Except.ok (Action.publish ("r/" ++ s.robotId ++ "/" ++ MQTT_TOPIC_ECHO)
        (MqttPayload.proto (ProtoMsg.echo topic now message.asText)) 0 false) := by
    simp [RobotSession.sendEcho, RobotSession.publishProtobuf, RobotSession.publishM, hmqtt]
  unfold RobotSession.onMessage
  rw [hecho]
  dsimp only
  split_ifs with h1 h2 h3 <;>
    simp [List.countP_cons, isEchoPub, RobotSession.handleInitialPose,
      RobotSession.handleNavGoal, RobotSession.handleCustomCommand,
      RobotSession.dispatchCommand, dispatchGo_no_echo]

/-- Witness for the C3 theorem: a concrete connected session receiving a
message on its initial-pose topic. -/
theorem onMessage_exactly_one_echo_witness :
    sConnected.mqtt = true
    ∧ (sConnected.onMessage 5 "r/r1/ros/loc/set_pose" m0).1.countP isEchoPub = 1 :=
  ⟨rfl, (onMessage_exactly_one_echo sConnected 5 "r/r1/ros/loc/set_pose" m0 rfl).1⟩

/-- Claim C4 (counterexample): after a `getSession` whose connect attempt
has settled — successfully (the call returned the connected session) or with
a rejection — the `connectPromises` entry for the id is still in the pending
map, contradicting the claim that it is removed once the attempt settles. -/
theorem connectPromises_entry_survives_settled_attempt :
    (RobotSessionPool.getSession PoolState.init "k" "r1" "n" 0 (Except.ok cfg0)).2.2
      = Except.ok (some sConnected)
    ∧ lookupA poolAfterGet.connectPromises "r1" = some ConnectOutcome.resolved
    ∧ lookupA poolFailed.connectPromises "r1" = some (ConnectOutcome.rejected fetchFail) :=
  ⟨rfl, rfl, rfl⟩

/-- Claim C4 (amended): the pending-attempt entry is NOT removed when the
connect attempt settles: after a fresh `getSession` returns, the
`connectPromises` entry for the id is still present whether the attempt
resolved or rejected; it is removed only by explicit teardown of the id,
e.g. a successful `freeRobotSession`. -/
theorem connectPromises_persist_until_freed (p : PoolState)
    (apiKey robotId name : String) (now : Nat)
    (cfgResult : Except JsError MqttConfig)
    (h : lookupA p.robotSessions robotId = none) :
    (lookupA (RobotSessionPool.getSession p apiKey robotId name now cfgResult).1.connectPromises
        robotId).isSome = true
    ∧ (∀ (q : PoolState) (sess : RobotSession),
        lookupA q.robotSessions robotId = some sess →
        lookupA q.connectPromises robotId = some ConnectOutcome.resolved →
        sess.mqtt = true →
        lookupA (RobotSessionPool.freeRobotSession q apiKey robotId now).1.connectPromises
          robotId = none) := by
  constructor
  · cases cfgResult with
    | ok cfg =>
      simp [RobotSessionPool.getSession, RobotSession.connect, h, lookupA_setA_self]
    | error e =>
      simp [RobotSessionPool.getSession, RobotSession.connect, h, lookupA_setA_self]
  · intro q sess hs hp hm
    simp [RobotSessionPool.freeRobotSession, RobotSessionPool.hasRobot,
      RobotSessionPool.getSession, hs, hp, RobotSession.endSession,
      RobotSession.publishM, hm, lookupA_eraseA_self]

/-- Witness for the amended C4 theorem: a fresh pool and a concrete
successful attempt. -/
theorem connectPromises_persist_until_freed_witness :
    lookupA PoolState.init.robotSessions "r1" = none
    ∧ (lookupA (RobotSessionPool.getSession PoolState.init "k" "r1" "n" 0
        (Except.ok cfg0)).1.connectPromises "r1").isSome = true :=
  ⟨rfl, (connectPromises_persist_until_freed PoolState.init "k" "r1" "n" 0
    (Except.ok cfg0) rfl).1⟩

/-- Claim C9 (counterexample): `freeSession` on an id whose session exists
but whose stored connect attempt was rejected re-raises the stored error and
frees nothing: no offline publish is emitted and `hasSession` remains true
afterwards — contradicting the claim that any existing session is ended and
removed. -/
theorem freeSession_fails_on_rejected_connect :
    RobotSessionPool.hasRobot poolFailed "r1" = true
    ∧ (RobotSessionPool.freeRobotSession poolFailed "k" "r1" 1).2.2 = Except.error fetchFail
    ∧ (RobotSessionPool.freeRobotSession poolFailed "k" "r1" 1).2.1 = []
    ∧ RobotSessionPool.hasRobot (RobotSessionPool.freeRobotSession poolFailed "k" "r1" 1).1 "r1"
        = true :=
  ⟨rfl, rfl, rfl, rfl⟩

/-- Claim C9 (amended): `freeSession` on an unknown id is a no-op.  On an id
whose stored connect attempt resolved (so the session holds the transport),
it publishes the offline presence record via the session's `end()` and
deletes the session, pending-attempt and last-use entries — `hasSession` is
false afterwards.  On an id whose stored attempt was rejected, however,
`freeSession` re-raises the stored connect error, publishes nothing and
deletes nothing. -/
theorem freeRobotSession_spec (p : PoolState) (apiKey robotId : String) (now : Nat) :
    (RobotSessionPool.hasRobot p robotId = false →
      RobotSessionPool.freeRobotSession p apiKey robotId now = (p, [], Except.ok ()))
    ∧ (∀ sess : RobotSession,
        lookupA p.robotSessions robotId = some sess →
        lookupA p.connectPromises robotId = some ConnectOutcome.resolved →
        sess.mqtt = true →
        (RobotSessionPool.freeRobotSession p apiKey robotId now).2.1
          = [Action.publish ("r/" ++ sess.robotId ++ "/" ++ "state")
              (MqttPayload.text ("0|" ++ jsTemplate sess.robotApiKey ++ "|"
                ++ sess.agentVersion ++ "|" ++ sess.name)) 1 true,
             Action.mqttEnd]
        ∧ (RobotSessionPool.freeRobotSession p apiKey robotId now).2.2 = Except.ok ()
        ∧ RobotSessionPool.hasRobot (RobotSessionPool.freeRobotSession p apiKey robotId now).1
            robotId = false
        ∧ lookupA (RobotSessionPool.freeRobotSession p apiKey robotId now).1.connectPromises
            robotId = none
        ∧ lookupA (RobotSessionPool.freeRobotSession p apiKey robotId now).1.robotSessionsLastUse
            robotId = none)
    ∧ (∀ e : JsError,
        lookupA p.connectPromises robotId = some (ConnectOutcome.rejected e) →
        RobotSessionPool.hasRobot p robotId = true →
        (RobotSessionPool.freeRobotSession p apiKey robotId now).2.2 = Except.error e
        ∧ (RobotSessionPool.freeRobotSession p apiKey robotId now).2.1 = []
        ∧ RobotSessionPool.hasRobot (RobotSessionPool.freeRobotSession p apiKey robotId now).1
            robotId = true) := by
  refine ⟨?_, ?_, ?_⟩
  · intro h
    simp [RobotSessionPool.freeRobotSession, h]
  · intro sess hs hp hm
    simp [RobotSessionPool.freeRobotSession, RobotSessionPool.hasRobot,
      RobotSessionPool.getSession, hs, hp, RobotSession.endSession,
      RobotSession.publishM, hm, lookupA_eraseA_self]
  · intro e hp hh
    simp only [RobotSessionPool.hasRobot, Option.isSome_iff_exists] at hh
    obtain ⟨sess, hs⟩ := hh
    simp [RobotSessionPool.freeRobotSession, RobotSessionPool.hasRobot,
      RobotSessionPool.getSession, hs, hp]

/-- Witness for the amended C9 theorem: `freeSession` on a fresh pool with
no session for the id. -/
theorem freeRobotSession_spec_witness :
    RobotSessionPool.hasRobot PoolState.init "r0" = false
    ∧ RobotSessionPool.freeRobotSession PoolState.init "k" "r0" 0
        = (PoolState.init, [], Except.ok ()) :=
  ⟨rfl, (freeRobotSession_spec PoolState.init "k" "r0" 0).1 rfl⟩

/-- Claim C6 (counterexample): on a fresh facade with the explicit-connect
policy active and no entity ever connected, a command-registration call does
not fail with a usage error — it succeeds, registers the callback globally,
and connects nothing. -/
theorem register_before_connect_succeeds :
    freshFacade.explicitConnect = true
    ∧ freshFacade.sessionsPool.robotSessions = []
    ∧ (InOrbit.registerCommandCallback freshFacade true (Callback.wellBehaved none)).2
        = Except.ok (some ())
    ∧ (InOrbit.registerCommandCallback freshFacade true (Callback.wellBehaved none)).1.sessionsPool
        = freshFacade.sessionsPool :=
  ⟨rfl, rfl, rfl, rfl⟩

/-- Claim C6 (amended): the required-connect policy governs the facade's
publish calls only.  Every publish call naming an id with no session fails
with the usage error (and connects nothing) when `explicitConnect` is set,
and proceeds by connecting when it is not; command registration, by
contrast, performs no session check at all — it never fails and never
connects, whatever the policy. -/
theorem facade_requires_connect_for_publish (st : InOrbitState) (robotId : String)
    (h : RobotSessionPool.hasRobot st.sessionsPool robotId = false) :
    (st.explicitConnect = true →
      (∀ kv cf now cfgR,
        InOrbit.publishCustomDataKV st robotId kv cf now cfgR
          = (st, [], Except.error (JsError.jsError usageErrorMsg)))
      ∧ (∀ ts x y yaw fr now cfgR,
        InOrbit.publishPose st robotId ts x y yaw fr now cfgR
          = (st, [], Except.error (JsError.jsError usageErrorMsg)))
      ∧ (∀ a b c d e f now cfgR,
        InOrbit.publishOdometry st robotId a b c d e f now cfgR
          = (st, [], Except.error (JsError.jsError usageErrorMsg)))
      ∧ (∀ ts paths now cfgR,
        InOrbit.publishPaths st robotId ts paths now cfgR
          = (st, [], Except.error (JsError.jsError usageErrorMsg))))
    ∧ (st.explicitConnect = false →
      (∀ (kv : List (String × JsVal)) (cf : String) (now : Nat) (cfg : MqttConfig),
        (InOrbit.publishCustomDataKV st robotId kv cf now (Except.ok cfg)).2.2 = Except.ok ()
        ∧ RobotSessionPool.hasRobot
            (InOrbit.publishCustomDataKV st robotId kv cf now (Except.ok cfg)).1.sessionsPool
            robotId = true
        ∧ (InOrbit.publishCustomDataKV st robotId kv cf now (Except.ok cfg)).2.1.countP
            isMqttConnectAct = 1)
      ∧ (∀ (ts x y yaw fr : String) (now : Nat) (cfg : MqttConfig),
        (InOrbit.publishPose st robotId ts x y yaw fr now (Except.ok cfg)).2.2 = Except.ok ()
        ∧ RobotSessionPool.hasRobot
            (InOrbit.publishPose st robotId ts x y yaw fr now (Except.ok cfg)).1.sessionsPool
            robotId = true
        ∧ (InOrbit.publishPose st robotId ts x y yaw fr now (Except.ok cfg)).2.1.countP
            isMqttConnectAct = 1)
      ∧ (∀ (a b c d e f : String) (now : Nat) (cfg : MqttConfig),
        (InOrbit.publishOdometry st robotId a b c d e f now (Except.ok cfg)).2.2 = Except.ok ()
        ∧ RobotSessionPool.hasRobot
            (InOrbit.publishOdometry st robotId a b c d e f now (Except.ok cfg)).1.sessionsPool
            robotId = true
        ∧ (InOrbit.publishOdometry st robotId a b c d e f now (Except.ok cfg)).2.1.countP
            isMqttConnectAct = 1)
      ∧ (∀ (ts : String) (paths : List (Option String × String × List (String × String)))
            (now : Nat) (cfg : MqttConfig),
        (InOrbit.publishPaths st robotId ts paths now (Except.ok cfg)).2.2 = Except.ok ()
        ∧ RobotSessionPool.hasRobot
            (InOrbit.publishPaths st robotId ts paths now (Except.ok cfg)).1.sessionsPool
            robotId = true
        ∧ (InOrbit.publishPaths st robotId ts paths now (Except.ok cfg)).2.1.countP
            isMqttConnectAct = 1))
    ∧ (∀ (isFn : Bool) (cb : Callback),
        (InOrbit.registerCommandCallback st isFn cb).2
          = Except.ok (if isFn then some () else none)
        ∧ (InOrbit.registerCommandCallback st isFn cb).1.sessionsPool = st.sessionsPool) := by
  have hlook : lookupA st.sessionsPool.robotSessions robotId = none := by
    cases hl : lookupA st.sessionsPool.robotSessions robotId with
    | none => rfl
    | some s =>
      rw [RobotSessionPool.hasRobot, hl] at h
      simp at h
  refine ⟨?_, ?_, ?_⟩
  · intro he
    have hgate : ∀ (name : String) (now : Nat) (cfgR : Except JsError MqttConfig),
        InOrbit.getRobotSession st robotId name now cfgR
          = (st, [], Except.error (JsError.jsError usageErrorMsg)) := by
      intro name now cfgR
      simp [InOrbit.getRobotSession, he, h]
    refine ⟨?_, ?_, ?_, ?_⟩ <;> intros <;>
      simp [InOrbit.publishCustomDataKV, InOrbit.publishPose,
        InOrbit.publishOdometry, InOrbit.publishPaths, InOrbit.publishVia, hgate]
  · intro he
    refine ⟨?_, ?_, ?_, ?_⟩ <;> intros <;>
      refine ⟨?_, ?_, ?_⟩ <;>
        simp [InOrbit.publishCustomDataKV, InOrbit.publishPose,
          InOrbit.publishOdometry, InOrbit.publishPaths, InOrbit.publishVia,
          InOrbit.getRobotSession, he, RobotSessionPool.getSession,
          RobotSessionPool.hasRobot, hlook, RobotSession.connect, lookupA_setA_self,
          RobotSession.publishCustomDataKV, RobotSession.publishPose,
          RobotSession.publishOdometry, RobotSession.publishPaths,
          RobotSession.publishProtobuf, RobotSession.publishM,
          List.countP, List.countP.go, isMqttConnectAct]
  · intro isFn cb
    cases isFn <;> simp [InOrbit.registerCommandCallback]

/-- Witness for the amended C6 theorem: a concrete facade with the policy
active and an unconnected id. -/
theorem facade_requires_connect_for_publish_witness :
    RobotSessionPool.hasRobot freshFacade.sessionsPool "r1" = false
    ∧ freshFacade.explicitConnect = true
    ∧ InOrbit.publishCustomDataKV freshFacade "r1" [] "0" 0 (Except.ok cfg0)
        = (freshFacade, [], Except.error (JsError.jsError usageErrorMsg)) :=
  ⟨rfl, rfl,
    ((facade_requires_connect_for_publish freshFacade "r1" rfl).1 rfl).1 [] "0" 0 (Except.ok cfg0)⟩

end EdgeSDK
